import Mathlib

/-!
Shallow embedding of the lease-observer and process-supervisor engine of
`rfdhcpserverlib/DhcpServerLibrary.py` (robotframework-dhcpserverlibrary).

Modelling conventions:
* A Python `dict` with string keys is modelled as an association list
  (`List (String × String)`) with no duplicate keys; assignment updates the
  entry in place when the key is present and appends otherwise, which is
  exactly the observable behaviour of `d[k] = v`.
* `threading.Event` is modelled as a `Bool` flag (`set`/`clear`), and
  `event.wait(timeout)` as reading the flag after the lease events that
  arrive during the blocking window have been processed by the D-Bus
  handler (the handlers run on the background loop thread).
* Raising an exception is modelled by `Except`; where the mutable state at the moment of the raise matters, the error value carries
  that state.
* External effects (subprocess spawns, the PID file, `os.kill` liveness
  probes) are parameters: the exit code `rc` of the daemon, the first line of the
  PID file, and an `alive : Nat → Bool` probe standing for `os.kill(pid, 0)`.
-/

/-- Python `str.lower()` for the ASCII strings handled by this library:
lowercase every character. (Defined structurally so that concrete instances
reduce in the kernel; `String.toLower` itself does not.) -/
def strToLower (s : String) : String :=
  ⟨s.data.map Char.toLower⟩

/-- Python dict assignment `d[k] = v`: overwrite the entry for `k` in place
when present, append `(k, v)` otherwise. -/
def dictSet : List (String × String) → String → String → List (String × String)
  | [], k, v => [(k, v)]
  | p :: rest, k, v => if p.1 == k then (k, v) :: rest else p :: dictSet rest k v

/-- Python dict lookup `d[k]`, returning `none` where Python raises `KeyError`. -/
def dictGet : List (String × String) → String → Option String
  | [], _ => none
  | p :: rest, k => if p.1 == k then some p.2 else dictGet rest k

/-- Python dict deletion `del d[k]`: removes the entry for `k` (the key occurs
at most once under the no-duplicate-keys invariant). -/
def dictDel : List (String × String) → String → List (String × String)
  | [], _ => []
  | p :: rest, k => if p.1 == k then rest else p :: dictDel rest k

/-- Python `k in d`. -/
def dictHasKey (d : List (String × String)) (k : String) : Bool :=
  (dictGet d k).isSome

/-- `DhcpServerLeaseList`: the lease database. The `leases_dict_mutex` of the
source serialises the dict operations; in this sequential embedding each
operation is already atomic, so only the dict itself is state. -/
structure DhcpServerLeaseList where
  leases_dict : List (String × String)
  deriving DecidableEq, Repr

namespace DhcpServerLeaseList

/-- `DhcpServerLeaseList.reset`: reset the database to empty. -/
def reset (_s : DhcpServerLeaseList) : DhcpServerLeaseList :=
  ⟨[]⟩

/-- `DhcpServerLeaseList.addLease(ipv4_address, hw_address)`:
`self.leases_dict[hw_address] = ipv4_address` under the mutex. -/
def addLease (s : DhcpServerLeaseList) (ipv4_address hw_address : String) :
    DhcpServerLeaseList :=
  ⟨dictSet s.leases_dict hw_address ipv4_address⟩

/-- `DhcpServerLeaseList.updateLease`: delegates to `addLease`. -/
def updateLease (s : DhcpServerLeaseList) (ipv4_address hw_address : String) :
    DhcpServerLeaseList :=
  addLease s ipv4_address hw_address

/-- `DhcpServerLeaseList.deleteLease(hw_address, raise_exceptions)`:
`del self.leases_dict[hw_address]` with `KeyError` always caught and only
logged (for every key, present or absent). The `TypeError` branch guarded by
`raise_exceptions` can only fire for unhashable keys, which cannot occur for
the string keys of this embedding, so no error is ever propagated. -/
def deleteLease (s : DhcpServerLeaseList) (hw_address : String)
    (_raise_exceptions : Bool) : Except String DhcpServerLeaseList :=
  if dictHasKey s.leases_dict hw_address then
    .ok ⟨dictDel s.leases_dict hw_address⟩
  else
    .ok s

/-- `DhcpServerLeaseList.get_ipv4address_for_hwaddress`: dict lookup returning
`None` on `KeyError`. -/
def get_ipv4address_for_hwaddress (s : DhcpServerLeaseList) (hw_address : String) :
    Option String :=
  dictGet s.leases_dict hw_address

/-- `DhcpServerLeaseList.to_tuple_list`: `self.leases_dict.items()`, with the
key/value order of the source (hw_address, ipv4_address). -/
def to_tuple_list (s : DhcpServerLeaseList) : List (String × String) :=
  s.leases_dict

end DhcpServerLeaseList

/-- `DnsmasqDhcpServerWrapper` state relevant to the lease-observer engine:
the lease database, the single-slot watch (`_watched_macaddr` plus the
`watched_macaddr_got_lease_event` threading event, modelled as a `Bool`), and
presence flags for the D-Bus main loop and interface objects (`true` means
"is not None"). -/
structure DnsmasqDhcpServerWrapper where
  lease_database : DhcpServerLeaseList
  watched_macaddr : Option String
  watched_macaddr_got_lease_event : Bool
  dbus_loop : Bool
  dbus_iface : Bool
  deriving DecidableEq, Repr

namespace DnsmasqDhcpServerWrapper

/-- State of a freshly constructed wrapper after `__init__` reaches `reset()`:
empty database, no watch target, event cleared, loop and interface present. -/
def fresh : DnsmasqDhcpServerWrapper :=
  { lease_database := ⟨[]⟩
    watched_macaddr := none
    watched_macaddr_got_lease_event := false
    dbus_loop := true
    dbus_iface := true }

/-- `DnsmasqDhcpServerWrapper.reset`: empties the internal lease database. -/
def reset (s : DnsmasqDhcpServerWrapper) : DnsmasqDhcpServerWrapper :=
  { s with lease_database := s.lease_database.reset }

/-- `DnsmasqDhcpServerWrapper.exit`: raises if `self._dbus_iface is None`,
otherwise quits the loop when present and sets `self._dbus_loop = None`.
Nothing else in the object is touched. -/
def exit (s : DnsmasqDhcpServerWrapper) : Except String DnsmasqDhcpServerWrapper :=
  if s.dbus_iface = false then
    .error "Method invoked on non existing D-Bus interface"
  else
    .ok { s with dbus_loop := false }

/-- `DnsmasqDhcpServerWrapper._handleDhcpLeaseAdded(ipaddr, hwaddr, ...)`:
lowercases the MAC, adds the lease to the database, and sets the watch event
when the lowercased MAC equals the watched target. -/
def handleDhcpLeaseAdded (s : DnsmasqDhcpServerWrapper) (ipaddr hwaddr : String) :
    DnsmasqDhcpServerWrapper :=
  let hw := strToLower hwaddr
  let s1 := { s with lease_database := s.lease_database.addLease ipaddr hw }
  match s1.watched_macaddr with
  | none => s1
  | some w =>
      if w == hw then { s1 with watched_macaddr_got_lease_event := true } else s1

/-- `DnsmasqDhcpServerWrapper._handleDhcpLeaseUpdated`: same effect as the
added handler, via `updateLease`. -/
def handleDhcpLeaseUpdated (s : DnsmasqDhcpServerWrapper) (ipaddr hwaddr : String) :
    DnsmasqDhcpServerWrapper :=
  let hw := strToLower hwaddr
  let s1 := { s with lease_database := s.lease_database.updateLease ipaddr hw }
  match s1.watched_macaddr with
  | none => s1
  | some w =>
      if w == hw then { s1 with watched_macaddr_got_lease_event := true } else s1

/-- `DnsmasqDhcpServerWrapper._handleDhcpLeaseDeleted`: lowercases the MAC and
deletes it from the database (`deleteLease` swallows the absent-key case). -/
def handleDhcpLeaseDeleted (s : DnsmasqDhcpServerWrapper) (_ipaddr hwaddr : String) :
    DnsmasqDhcpServerWrapper :=
  match s.lease_database.deleteLease (strToLower hwaddr) false with
  | .ok db => { s with lease_database := db }
  | .error _ => s

/-- `DnsmasqDhcpServerWrapper.setMacAddrToWatch(mac)`: clears the threading
event and stores the lowercased MAC as the sole watch target. -/
def setMacAddrToWatch (s : DnsmasqDhcpServerWrapper) (mac : String) :
    DnsmasqDhcpServerWrapper :=
  { s with
    watched_macaddr_got_lease_event := false
    watched_macaddr := some (strToLower mac) }

/-- `DnsmasqDhcpServerWrapper.getLeasesList`. -/
def getLeasesList (s : DnsmasqDhcpServerWrapper) : List (String × String) :=
  s.lease_database.to_tuple_list

/-- `DnsmasqDhcpServerWrapper.getIpForMac(mac)`: lowercases the MAC and looks
it up in the lease database; no connection-state check of any kind. -/
def getIpForMac (s : DnsmasqDhcpServerWrapper) (mac : String) : Option String :=
  s.lease_database.get_ipv4address_for_hwaddress (strToLower mac)

end DnsmasqDhcpServerWrapper

/-- `SlaveDhcpServerProcess` state: the resolved daemon PID read back from the
PID file (`_slave_dhcp_server_pid`), the list of PIDs we must terminate
(`_all_processes_pid`), and the configured lease time. -/
structure SlaveDhcpServerProcess where
  slave_dhcp_server_pid : Option Nat
  all_processes_pid : List Nat
  lease_time : Option String
  deriving DecidableEq, Repr

namespace SlaveDhcpServerProcess

/-- State after `__init__`: no resolved PID, empty PID list, no lease time. -/
def init : SlaveDhcpServerProcess :=
  { slave_dhcp_server_pid := none, all_processes_pid := [], lease_time := none }

/-- `SlaveDhcpServerProcess.setLeaseTime`: raises `DhcpServerAlreadyStarted`
when a resolved PID exists; the error carries the (unchanged) object state. -/
def setLeaseTime (s : SlaveDhcpServerProcess) (lease_time : String) :
    Except (String × SlaveDhcpServerProcess) SlaveDhcpServerProcess :=
  if s.slave_dhcp_server_pid.isSome then
    .error ("DhcpServerAlreadyStarted", s)
  else
    .ok { s with lease_time := some lease_time }

/-- `SlaveDhcpServerProcess.hasBeenStarted`:
`not self._slave_dhcp_server_pid is None`. -/
def hasBeenStarted (s : SlaveDhcpServerProcess) : Bool :=
  s.slave_dhcp_server_pid.isSome

/-- `SlaveDhcpServerProcess.isRunning`: false when never started, otherwise
false as soon as one tracked PID fails the `_checkPid` probe (`os.kill(pid, 0)`
modelled by the `alive` parameter), true when all are alive. -/
def isRunning (s : SlaveDhcpServerProcess) (alive : Nat → Bool) : Bool :=
  if hasBeenStarted s = false then
    false
  else
    s.all_processes_pid.all alive

/-- `SlaveDhcpServerProcess.addSlavePid(pid)`: appends `pid` to
`_all_processes_pid` unless it is already in the list. -/
def addSlavePid (s : SlaveDhcpServerProcess) (pid : Nat) : SlaveDhcpServerProcess :=
  if pid ∈ s.all_processes_pid then s
  else { s with all_processes_pid := s.all_processes_pid ++ [pid] }

/-- `SlaveDhcpServerProcess.start`, from the point where the real daemon spawn
(`subprocess.Popen` + `communicate`) has completed. The external steps
(mkdir/chown/chgrp of the PID directory and the `--test` dry run) are taken as
having succeeded; `rc` is `proc.returncode` and `pid_file_line` the first line
read from the PID file. No attribute of `self` is mutated before any of the
raises, so every error carries the input state unchanged. `int()` applied to
a non-numeric PID line raises `ValueError`. -/
def start (s : SlaveDhcpServerProcess) (alive : Nat → Bool) (rc : Int)
    (pid_file_line : String) :
    Except (String × SlaveDhcpServerProcess) SlaveDhcpServerProcess :=
  if isRunning s alive then
    .error ("DhcpServerAlreadyStarted", s)
  else if rc = 0 then
    if pid_file_line = "" then
      .error ("EmptyPIDFile", s)
    else
      match pid_file_line.trim.toNat? with
      | none => .error ("ValueError", s)
      | some pid =>
          addSlavePid { s with slave_dhcp_server_pid := some pid } pid
            |> .ok
  else if rc = 2 then
    .error ("DhcpPortAlreadyUsed", s)
  else
    .error ("SlaveFailed", s)

/-- `SlaveDhcpServerProcess.killLastPid`: raises `NoChildPID` when the list is
empty; otherwise only sends a signal (no state change). -/
def killLastPid (s : SlaveDhcpServerProcess) :
    Except (String × SlaveDhcpServerProcess) SlaveDhcpServerProcess :=
  if s.all_processes_pid.length = 0 then
    .error ("NoChildPID", s)
  else
    .ok s

/-- `SlaveDhcpServerProcess.killSlavePids`: signals every tracked PID, then
unconditionally empties `_all_processes_pid` and clears
`_slave_dhcp_server_pid`. -/
def killSlavePids (s : SlaveDhcpServerProcess) : SlaveDhcpServerProcess :=
  { s with all_processes_pid := [], slave_dhcp_server_pid := none }

/-- `SlaveDhcpServerProcess.kill`: delegates to `killSlavePids`. -/
def kill (s : SlaveDhcpServerProcess) : SlaveDhcpServerProcess :=
  killSlavePids s

end SlaveDhcpServerProcess

namespace DhcpServerLibrary

/-- The lease-added events that the background D-Bus loop delivers while a
foreground call is blocked, applied in delivery order; each event carries
`(ipaddr, hwaddr)` as emitted by dnsmasq. -/
def applyLeaseAddedEvents (w : DnsmasqDhcpServerWrapper)
    (events : List (String × String)) : DnsmasqDhcpServerWrapper :=
  events.foldl (fun s e => s.handleDhcpLeaseAdded e.1 e.2) w

/-- `DhcpServerLibrary.wait_lease(mac, timeout)` acting on the wrapper
`self._dnsmasq_wrapper`. Returns `(wrapper state, returned value)`;
the returned value is an `Option String` because the Python function body has
a `return ip` statement only on the lease-already-known path and otherwise
falls off the end (returning `None`). `events` are the lease-added events
delivered during the blocking `watched_macaddr_got_lease_event.wait(timeout)`
window, and the `wait` outcome is the event flag after they are handled.
The `try`/`except` re-raises `NoLeaseFound` as `No lease known for <mac>` and
propagates every other exception unchanged. -/
def wait_lease (w : DnsmasqDhcpServerWrapper) (mac : String) (timeout : Option Int)
    (events : List (String × String)) :
    Except String (DnsmasqDhcpServerWrapper × Option String) :=
  match w.getIpForMac mac with
  | some ip => .ok (w, some ip)
  | none =>
    let inner : Except String (DnsmasqDhcpServerWrapper × Option String) :=
      match timeout with
      | none => .error "NoLeaseFound"
      | some t =>
        if t ≤ 0 then
          .error "NoLeaseFound"
        else
          let w1 := w.setMacAddrToWatch mac
          let w2 := applyLeaseAddedEvents w1 events
          if w2.watched_macaddr_got_lease_event = false then
            .error "NoLeaseFound"
          else
            .ok (w2, none)
    match inner with
    | .ok r => .ok r
    | .error e =>
        if e ≠ "NoLeaseFound" then .error e
        else .error ("No lease known for " ++ mac)

/-- `DhcpServerLibrary.check_dhcp_client_off(mac, timeout)`, from the `try`
block onwards: the inner `self.wait_lease(mac, timeout)` call is abstracted by
its result so that the bare `except:` clause can be stated over every possible
exception; any exception makes the keyword return, and a normal return of
`wait_lease` raises `Existing lease for <mac>`. -/
def check_dhcp_client_off (mac : String)
    (wait_lease_result : Except String (DnsmasqDhcpServerWrapper × Option String)) :
    Except String Unit :=
  match wait_lease_result with
  | .error _ => .ok ()
  | .ok _ => .error ("Existing lease for " ++ mac)

end DhcpServerLibrary

/-! ### Helper lemmas about the dict model -/

theorem dictGet_dictSet_self (d : List (String × String)) (k v : String) :
    dictGet (dictSet d k v) k = some v := by
  induction d with
  | nil => simp [dictSet, dictGet]
  | cons p rest ih =>
    by_cases h : p.1 == k
    · simp [dictSet, dictGet, h]
    · simp [dictSet, dictGet, h, ih]

theorem length_dictSet_of_isSome (d : List (String × String)) (k v : String)
    (h : (dictGet d k).isSome = true) :
    (dictSet d k v).length = d.length := by
  induction d with
  | nil => simp [dictGet] at h
  | cons p rest ih =>
    by_cases hp : p.1 == k
    · simp [dictSet, hp]
    · simp [dictGet, hp] at h
      simp [dictSet, hp, ih h]

theorem dictDel_of_dictGet_none (d : List (String × String)) (k : String)
    (h : dictGet d k = none) : dictDel d k = d := by
  induction d with
  | nil => rfl
  | cons p rest ih =>
    by_cases hp : p.1 == k
    · simp [dictGet, hp] at h
    · simp [dictGet, hp] at h
      simp [dictDel, hp, ih h]

theorem handleDhcpLeaseAdded_lease_database (s : DnsmasqDhcpServerWrapper)
    (ip m : String) :
    (s.handleDhcpLeaseAdded ip m).lease_database
      = s.lease_database.addLease ip (strToLower m) := by
  unfold DnsmasqDhcpServerWrapper.handleDhcpLeaseAdded
  cases hw : s.watched_macaddr with
  | none => simp
  | some w =>
    by_cases h : w == strToLower m
    · simp [h]
    · simp [h]

/-! ### Claim theorems -/

/-- Claim C5: deleting an absent MAC from the lease table (deleteLease with
the default `raise_exceptions = False`) raises nothing and returns the table
exactly unchanged. -/
theorem deleteLease_absent_is_noop (s : DhcpServerLeaseList) (mac : String)
    (h : dictGet s.leases_dict mac = none) :
    s.deleteLease mac false = .ok s := by
  simp [DhcpServerLeaseList.deleteLease, dictHasKey, h]

/-- Witness for C5 at a concrete table and absent key. -/
theorem deleteLease_absent_is_noop_witness :
    dictGet (DhcpServerLeaseList.mk [("aa:bb:cc:dd:ee:ff", "192.168.0.130")]).leases_dict
        "00:11:22:33:44:55" = none
    ∧ (DhcpServerLeaseList.mk [("aa:bb:cc:dd:ee:ff", "192.168.0.130")]).deleteLease
        "00:11:22:33:44:55" false
        = .ok (DhcpServerLeaseList.mk [("aa:bb:cc:dd:ee:ff", "192.168.0.130")]) :=
  ⟨by decide, deleteLease_absent_is_noop _ _ (by decide)⟩

/-- Claim C7: putting twice under the same MAC key overwrites (the lookup
returns the second IP) and does not change the number of entries in the
table. -/
theorem addLease_overwrite_no_history (d : DhcpServerLeaseList)
    (mac ip1 ip2 : String) :
    ((d.addLease ip1 mac).addLease ip2 mac).get_ipv4address_for_hwaddress mac
        = some ip2
    ∧ ((d.addLease ip1 mac).addLease ip2 mac).leases_dict.length
        = (d.addLease ip1 mac).leases_dict.length := by
  constructor
  · simp [DhcpServerLeaseList.addLease,
          DhcpServerLeaseList.get_ipv4address_for_hwaddress, dictGet_dictSet_self]
  · simp only [DhcpServerLeaseList.addLease]
    exact length_dictSet_of_isSome _ _ _ (by rw [dictGet_dictSet_self]; rfl)

/-- Claim C8: a lease recorded by the lease-added handler under MAC `m` is
found by `getIpForMac` under any casing `m'` of the same MAC, because both
sides normalize to lowercase before touching the table. -/
theorem getIpForMac_case_insensitive (w : DnsmasqDhcpServerWrapper)
    (m m' ip : String) (h : strToLower m' = strToLower m) :
    (w.handleDhcpLeaseAdded ip m).getIpForMac m' = some ip := by
  simp [DnsmasqDhcpServerWrapper.getIpForMac, handleDhcpLeaseAdded_lease_database, h,
        DhcpServerLeaseList.get_ipv4address_for_hwaddress, DhcpServerLeaseList.addLease,
        dictGet_dictSet_self]

/-- Claim C6: the watch is single-target. After `setMacAddrToWatch A`, a
lease-added or lease-updated event for a different MAC `B` leaves the wait
signal cleared; an event for `A` sets it; a second `setMacAddrToWatch C`
clears the signal and replaces the target, so a subsequent event for `A` no
longer sets it. MAC addresses are case-insensitive, so "different" means
distinct after lowercasing. -/
theorem watch_single_target (w : DnsmasqDhcpServerWrapper)
    (A B C ip1 ip2 ip3 : String)
    (hB : strToLower B ≠ strToLower A) (hC : strToLower A ≠ strToLower C) :
    ((w.setMacAddrToWatch A).handleDhcpLeaseAdded ip1 B).watched_macaddr_got_lease_event
        = false
    ∧ ((w.setMacAddrToWatch A).handleDhcpLeaseUpdated ip1 B).watched_macaddr_got_lease_event
        = false
    ∧ ((w.setMacAddrToWatch A).handleDhcpLeaseAdded ip2 A).watched_macaddr_got_lease_event
        = true
    ∧ ((w.setMacAddrToWatch A).handleDhcpLeaseUpdated ip2 A).watched_macaddr_got_lease_event
        = true
    ∧ (((w.setMacAddrToWatch A).handleDhcpLeaseAdded ip2 A).setMacAddrToWatch
        C).watched_macaddr_got_lease_event = false
    ∧ (((w.setMacAddrToWatch A).handleDhcpLeaseAdded ip2 A).setMacAddrToWatch
        C).watched_macaddr = some (strToLower C)
    ∧ (((w.setMacAddrToWatch A).setMacAddrToWatch C).handleDhcpLeaseAdded ip3
        A).watched_macaddr_got_lease_event = false := by
  refine ⟨?_, ?_, ?_, ?_, ?_, ?_, ?_⟩ <;>
    simp [DnsmasqDhcpServerWrapper.setMacAddrToWatch,
          DnsmasqDhcpServerWrapper.handleDhcpLeaseAdded,
          DnsmasqDhcpServerWrapper.handleDhcpLeaseUpdated,
          Ne.symm hB, Ne.symm hC]

/-- Witness for C6 at concrete distinct MAC addresses. -/
theorem watch_single_target_witness :
    (strToLower "aa:bb:cc:dd:ee:02" ≠ strToLower "AA:BB:CC:DD:EE:01"
      ∧ strToLower "AA:BB:CC:DD:EE:01" ≠ strToLower "aa:bb:cc:dd:ee:03")
    ∧ ((DnsmasqDhcpServerWrapper.fresh.setMacAddrToWatch
            "AA:BB:CC:DD:EE:01").handleDhcpLeaseAdded "192.168.0.131"
            "aa:bb:cc:dd:ee:02").watched_macaddr_got_lease_event = false
    ∧ (((DnsmasqDhcpServerWrapper.fresh.setMacAddrToWatch
            "AA:BB:CC:DD:EE:01").setMacAddrToWatch
            "aa:bb:cc:dd:ee:03").handleDhcpLeaseAdded "192.168.0.132"
            "AA:BB:CC:DD:EE:01").watched_macaddr_got_lease_event = false :=
  ⟨⟨by decide, by decide⟩,
    (watch_single_target DnsmasqDhcpServerWrapper.fresh
      "AA:BB:CC:DD:EE:01" "aa:bb:cc:dd:ee:02" "aa:bb:cc:dd:ee:03"
      "192.168.0.131" "192.168.0.132" "192.168.0.132"
      (by decide) (by decide)).1,
    (watch_single_target DnsmasqDhcpServerWrapper.fresh
      "AA:BB:CC:DD:EE:01" "aa:bb:cc:dd:ee:02" "aa:bb:cc:dd:ee:03"
      "192.168.0.131" "192.168.0.132" "192.168.0.132"
      (by decide) (by decide)).2.2.2.2.2.2⟩

/-- Witness for C8: event recorded with an uppercase MAC, queried lowercase. -/
theorem getIpForMac_case_insensitive_witness :
    (strToLower "aa:bb:cc:dd:ee:ff" = strToLower "AA:BB:CC:DD:EE:FF")
    ∧ (DnsmasqDhcpServerWrapper.fresh.handleDhcpLeaseAdded "192.168.0.130"
        "AA:BB:CC:DD:EE:FF").getIpForMac "aa:bb:cc:dd:ee:ff" = some "192.168.0.130" :=
  ⟨by decide, getIpForMac_case_insensitive _ _ _ _ (by decide)⟩

/-! ### Supervisor helper lemmas -/

/-- The supervisor state invariant of the spec: the tracked-PID list has no
duplicates, and the resolved daemon PID, when set, is a member of the list. -/
def SupervisorInv (s : SlaveDhcpServerProcess) : Prop :=
  s.all_processes_pid.Nodup
  ∧ ∀ p, s.slave_dhcp_server_pid = some p → p ∈ s.all_processes_pid

theorem addSlavePid_pid_field (s : SlaveDhcpServerProcess) (pid : Nat) :
    (s.addSlavePid pid).slave_dhcp_server_pid = s.slave_dhcp_server_pid := by
  unfold SlaveDhcpServerProcess.addSlavePid
  split <;> rfl

theorem addSlavePid_nodup (s : SlaveDhcpServerProcess) (pid : Nat)
    (h : s.all_processes_pid.Nodup) :
    (s.addSlavePid pid).all_processes_pid.Nodup := by
  unfold SlaveDhcpServerProcess.addSlavePid
  split
  · exact h
  · rename_i hmem
    simp [List.nodup_append, h, hmem]

theorem addSlavePid_mem_self (s : SlaveDhcpServerProcess) (pid : Nat) :
    pid ∈ (s.addSlavePid pid).all_processes_pid := by
  unfold SlaveDhcpServerProcess.addSlavePid
  split
  · assumption
  · simp

theorem addSlavePid_mem_mono (s : SlaveDhcpServerProcess) (pid p : Nat)
    (h : p ∈ s.all_processes_pid) : p ∈ (s.addSlavePid pid).all_processes_pid := by
  unfold SlaveDhcpServerProcess.addSlavePid
  split
  · exact h
  · simp [h]

theorem addSlavePid_inv (s : SlaveDhcpServerProcess) (h : SupervisorInv s)
    (pid : Nat) : SupervisorInv (s.addSlavePid pid) := by
  refine ⟨addSlavePid_nodup s pid h.1, ?_⟩
  intro p hp
  rw [addSlavePid_pid_field] at hp
  exact addSlavePid_mem_mono s pid p (h.2 p hp)

theorem start_ok_state (s : SlaveDhcpServerProcess) (alive : Nat → Bool)
    (rc : Int) (line : String) (s' : SlaveDhcpServerProcess)
    (h : s.start alive rc line = .ok s') :
    ∃ pid, line.trim.toNat? = some pid
      ∧ s' = SlaveDhcpServerProcess.addSlavePid
          { s with slave_dhcp_server_pid := some pid } pid := by
  unfold SlaveDhcpServerProcess.start at h
  by_cases h1 : s.isRunning alive
  · simp [h1] at h
  · simp [h1] at h
    by_cases h2 : rc = 0
    · simp [h2] at h
      by_cases h3 : line = ""
      · simp [h3] at h
      · simp [h3] at h
        cases h4 : line.trim.toNat? with
        | none => simp [h4] at h
        | some pid =>
            simp [h4] at h
            exact ⟨pid, rfl, h.symm⟩
    · by_cases h5 : rc = 2 <;> simp [h2, h5] at h

theorem start_error_state (s : SlaveDhcpServerProcess) (alive : Nat → Bool)
    (rc : Int) (line e : String) (s' : SlaveDhcpServerProcess)
    (h : s.start alive rc line = .error (e, s')) : s' = s := by
  unfold SlaveDhcpServerProcess.start at h
  by_cases h1 : s.isRunning alive
  · simp [h1] at h
    exact h.2.symm
  · simp [h1] at h
    by_cases h2 : rc = 0
    · simp [h2] at h
      by_cases h3 : line = ""
      · simp [h3] at h
        exact h.2.symm
      · simp [h3] at h
        cases h4 : line.trim.toNat? with
        | none =>
            simp [h4] at h
            exact h.2.symm
        | some pid => simp [h4] at h
    · by_cases h5 : rc = 2 <;> simp [h2, h5] at h <;> exact h.2.symm

/-! ### Supervisor claim theorems -/

/-- Claim C9: `isRunning` is true exactly when the supervisor has been started
(a resolved daemon PID is recorded) and every tracked PID passes the
zero-signal liveness probe; a single dead tracked PID makes it false. -/
theorem isRunning_iff_started_and_all_alive (s : SlaveDhcpServerProcess)
    (alive : Nat → Bool) :
    (s.isRunning alive = true ↔
      (s.hasBeenStarted = true ∧ ∀ pid ∈ s.all_processes_pid, alive pid = true))
    ∧ (∀ pid ∈ s.all_processes_pid, alive pid = false →
        s.isRunning alive = false) := by
  constructor
  · unfold SlaveDhcpServerProcess.isRunning
    by_cases h : s.hasBeenStarted <;> simp [h, List.all_eq_true]
  · intro pid hmem hdead
    unfold SlaveDhcpServerProcess.isRunning
    by_cases h : s.hasBeenStarted <;> simp [h, List.all_eq_true]
    exact ⟨pid, hmem, by simp [hdead]⟩

/-- Claim C3: after the real daemon spawn completes, launch exit code 2 makes
start() fail with the address-in-use kind (`DhcpPortAlreadyUsed` in the
source), any other non-zero code with the launch-failed kind (`SlaveFailed`),
exit code 0 continues past this stage (it can only fail later on the PID
file), and every failure leaves the supervisor state unchanged, so no PID is
tracked. -/
theorem start_exit_code_interpretation (s : SlaveDhcpServerProcess)
    (alive : Nat → Bool) (line : String) (hrun : s.isRunning alive = false) :
    s.start alive 2 line = .error ("DhcpPortAlreadyUsed", s)
    ∧ (∀ rc : Int, rc ≠ 0 → rc ≠ 2 → s.start alive rc line = .error ("SlaveFailed", s))
    ∧ (∀ e s', s.start alive 0 line = .error (e, s') →
        (e = "EmptyPIDFile" ∨ e = "ValueError") ∧ s' = s)
    ∧ (∀ rc e s', s.start alive rc line = .error (e, s') → s' = s) := by
  refine ⟨?_, ?_, ?_, ?_⟩
  · unfold SlaveDhcpServerProcess.start
    simp [hrun]
  · intro rc h0 h2
    unfold SlaveDhcpServerProcess.start
    simp [hrun, h0, h2]
  · intro e s' h
    refine ⟨?_, start_error_state s alive 0 line e s' h⟩
    unfold SlaveDhcpServerProcess.start at h
    simp [hrun] at h
    by_cases h3 : line = ""
    · simp [h3] at h
      exact Or.inl h.1.symm
    · simp [h3] at h
      cases h4 : line.trim.toNat? with
      | none =>
          simp [h4] at h
          exact Or.inr h.1.symm
      | some pid => simp [h4] at h
  · intro rc e s' h
    exact start_error_state s alive rc line e s' h

/-- Witness for C3: a freshly initialised supervisor is not running, and a
spawn completing with exit code 2 fails with `DhcpPortAlreadyUsed`, leaving
the state unchanged (no PID tracked). -/
theorem start_exit_code_interpretation_witness :
    SlaveDhcpServerProcess.init.isRunning (fun _ => true) = false
    ∧ SlaveDhcpServerProcess.init.start (fun _ => true) 2 ""
        = .error ("DhcpPortAlreadyUsed", SlaveDhcpServerProcess.init) :=
  ⟨by decide,
    (start_exit_code_interpretation SlaveDhcpServerProcess.init
      (fun _ => true) "" (by decide)).1⟩

/-- Claim C10: every supervisor operation preserves the state invariant (the
tracked-PID list has no duplicates and the resolved daemon PID, when set, is
a member of the list): `addSlavePid` never inserts a PID already present,
`start` records the resolved PID by adding it to the list, the error paths of
`start` and of `setLeaseTime` leave the state untouched, and
`killSlavePids`/`kill` clear the list and the resolved PID together. -/
theorem supervisor_operations_preserve_inv (s : SlaveDhcpServerProcess)
    (h : SupervisorInv s) :
    SupervisorInv SlaveDhcpServerProcess.init
    ∧ (∀ pid, SupervisorInv (s.addSlavePid pid))
    ∧ (∀ pid, pid ∈ s.all_processes_pid → s.addSlavePid pid = s)
    ∧ (∀ alive rc line s', s.start alive rc line = .ok s' →
        SupervisorInv s'
        ∧ ∃ p, s'.slave_dhcp_server_pid = some p ∧ p ∈ s'.all_processes_pid)
    ∧ (∀ alive rc line e s', s.start alive rc line = .error (e, s') →
        SupervisorInv s')
    ∧ (SupervisorInv s.killSlavePids
        ∧ s.killSlavePids.all_processes_pid = []
        ∧ s.killSlavePids.slave_dhcp_server_pid = none)
    ∧ SupervisorInv s.kill
    ∧ (∀ lt s', s.setLeaseTime lt = .ok s' → SupervisorInv s') := by
  have hinit : SupervisorInv SlaveDhcpServerProcess.init :=
    ⟨List.nodup_nil, fun p hp => by simp [SlaveDhcpServerProcess.init] at hp⟩
  have hkill : SupervisorInv s.killSlavePids :=
    ⟨List.nodup_nil, fun p hp => by simp [SlaveDhcpServerProcess.killSlavePids] at hp⟩
  refine ⟨hinit, fun pid => addSlavePid_inv s h pid, ?_, ?_, ?_, ⟨hkill, rfl, rfl⟩,
    hkill, ?_⟩
  · intro pid hmem
    unfold SlaveDhcpServerProcess.addSlavePid
    rw [if_pos hmem]
  · intro alive rc line s' hok
    obtain ⟨pid, _, hs'⟩ := start_ok_state s alive rc line s' hok
    subst hs'
    constructor
    · refine ⟨addSlavePid_nodup _ pid h.1, ?_⟩
      intro p hp
      rw [addSlavePid_pid_field] at hp
      have hppid : p = pid := (Option.some.inj hp).symm
      rw [hppid]
      exact addSlavePid_mem_self _ pid
    · exact ⟨pid, by rw [addSlavePid_pid_field], addSlavePid_mem_self _ pid⟩
  · intro alive rc line e s' herr
    rw [start_error_state s alive rc line e s' herr]
    exact h
  · intro lt s' hok
    unfold SlaveDhcpServerProcess.setLeaseTime at hok
    by_cases hp : s.slave_dhcp_server_pid.isSome
    · simp [hp] at hok
    · simp [hp] at hok
      rw [← hok]
      exact ⟨h.1, fun p hq => h.2 p hq⟩

/-- Witness for C10: the invariant holds of the freshly initialised supervisor
and is preserved when a PID is added to it. -/
theorem supervisor_operations_preserve_inv_witness :
    SupervisorInv SlaveDhcpServerProcess.init
    ∧ SupervisorInv (SlaveDhcpServerProcess.init.addSlavePid 42) :=
  ⟨⟨List.nodup_nil, fun p hp => by simp [SlaveDhcpServerProcess.init] at hp⟩,
    (supervisor_operations_preserve_inv SlaveDhcpServerProcess.init
      ⟨List.nodup_nil,
        fun p hp => by simp [SlaveDhcpServerProcess.init] at hp⟩).2.1 42⟩

/-- Claim C1 (evidence for the code bug): starting from an empty lease table,
`wait_lease` with timeout 5 during whose wait a matching lease-added event
fires completes without raising — and the lease is then known in the
table of the wrapper — but the Python function body has no `return` on this path,
so it falls off the end and returns `None` instead of the allocated IPv4
address promised by its own docstring example. -/
theorem wait_lease_event_path_returns_none :
    (DhcpServerLibrary.wait_lease DnsmasqDhcpServerWrapper.fresh
        "aa:bb:cc:dd:ee:ff" (some 5)
        [("192.168.0.130", "AA:BB:CC:DD:EE:FF")]).toOption.map Prod.snd
      = some none
    ∧ (DhcpServerLibrary.wait_lease DnsmasqDhcpServerWrapper.fresh
        "aa:bb:cc:dd:ee:ff" (some 5)
        [("192.168.0.130", "AA:BB:CC:DD:EE:FF")]).toOption.map
          (fun r => r.1.getIpForMac "aa:bb:cc:dd:ee:ff")
      = some (some "192.168.0.130") := by
  constructor
  · decide
  · decide

/-- A wrapper observing one recorded lease, before `exit()`. -/
def wrapperWithLease : DnsmasqDhcpServerWrapper :=
  { DnsmasqDhcpServerWrapper.fresh with
    lease_database := ⟨[("aa:bb:cc:dd:ee:ff", "192.168.0.130")]⟩ }

/-- The same wrapper after `exit()`: only the D-Bus loop reference is
cleared. -/
def wrapperAfterExit : DnsmasqDhcpServerWrapper :=
  { wrapperWithLease with dbus_loop := false }

/-- Claim C2 counterexample: `exit()` succeeds on a connected observer, yet a
subsequent `getIpForMac` query does not fail with `NotConnected` (its type
cannot fail at all: no connection check exists on the query path) — it
returns the stale value from the lease table. -/
theorem getIpForMac_after_exit_returns_stale :
    DnsmasqDhcpServerWrapper.exit wrapperWithLease = .ok wrapperAfterExit
    ∧ wrapperAfterExit.getIpForMac "AA:BB:CC:DD:EE:FF" = some "192.168.0.130" := by
  constructor
  · rfl
  · decide

/-- Claim C2 amended: `exit()` only stops the D-Bus loop; it leaves the lease
table untouched and `getIpForMac` performs no connection check, so a query
after a successful `exit()` returns exactly what it returned before (stale
data rather than a `NotConnected` failure). -/
theorem getIpForMac_unchanged_by_exit (w w' : DnsmasqDhcpServerWrapper)
    (mac : String) (h : w.exit = .ok w') :
    w'.getIpForMac mac = w.getIpForMac mac := by
  unfold DnsmasqDhcpServerWrapper.exit at h
  by_cases hi : w.dbus_iface = false
  · simp [hi] at h
  · simp [hi] at h
    rw [← h]
    rfl

/-- Witness for the amended claim of C2 at a concrete wrapper. -/
theorem getIpForMac_unchanged_by_exit_witness :
    DnsmasqDhcpServerWrapper.exit wrapperWithLease = .ok wrapperAfterExit
    ∧ wrapperAfterExit.getIpForMac "aa:bb:cc:dd:ee:ff"
        = wrapperWithLease.getIpForMac "aa:bb:cc:dd:ee:ff" :=
  ⟨rfl, getIpForMac_unchanged_by_exit wrapperWithLease wrapperAfterExit
          "aa:bb:cc:dd:ee:ff" rfl⟩

/-- Claim C4: the bare `except:` of `check_dhcp_client_off` turns every
possible exception of the inner `wait_lease` call — whatever its kind — into
a normal client-is-off return; in particular this holds of the actual
`wait_lease` at every wrapper state, timeout and event schedule on which it
raises. -/
theorem check_dhcp_client_off_swallows_all (mac : String) :
    (∀ e : String,
        DhcpServerLibrary.check_dhcp_client_off mac (Except.error e) = .ok ())
    ∧ (∀ w timeout events e,
        DhcpServerLibrary.wait_lease w mac timeout events = .error e →
        DhcpServerLibrary.check_dhcp_client_off mac
          (DhcpServerLibrary.wait_lease w mac timeout events) = .ok ()) := by
  constructor
  · intro e
    rfl
  · intro w timeout events e hw
    rw [hw]
    rfl
